import Mathlib

/-!
Verification of the command-line front end of the computer-use demo
(`computer_use_demo/command_line.py` and `computer_use_demo/logging_utils.py`).

The Python source is shallowly embedded: JSON values are an inductive type,
the logger's file is a list of appended entries (rendered to text lines by a
model of `json.dumps`), exceptions are an explicit error type threaded
through `Except`, the interactive driver is a step function over an explicit
input-event list, and the external sampling loop (which lives outside these
two files) is a parameter.

One fact of the source dominates the logging subsystem: the first branch of
`LogEntry._serialize_content` tests `isinstance(self.content,
(BetaMessageParam, dict))`, and `BetaMessageParam` is a `TypedDict` —
`isinstance` against a TypedDict raises `TypeError: TypedDict does not
support instance and class checks` (PEP 589), with the tuple checked left to
right, so the raise pre-empts the `dict` test. `_serialize_content` therefore
raises on every call, every logger write raises before appending, and every
driver path that reaches the logger propagates that `TypeError`. The model
carries both this actual behavior and, separately, the serialization each
branch is written to perform (`serialize_content_intended`), which several
claims are measured against.
-/

/-- JSON values, the payloads handled by `json.dumps` in `logging_utils.py`.
Numbers are modelled as integers (no claim involves floats). -/
inductive JsonVal where
  | null : JsonVal
  | bool (b : Bool) : JsonVal
  | num (i : Int) : JsonVal
  | str (s : String) : JsonVal
  | arr (xs : List JsonVal) : JsonVal
  | obj (fields : List (String × JsonVal)) : JsonVal

/-- Left brace character (written via its code point). -/
def lbrace : Char := Char.ofNat 123

/-- Right brace character (written via its code point). -/
def rbrace : Char := Char.ofNat 125

/-- Hex digit character for `n % 16`, lowercase as produced by Python's
`json.dumps` unicode escapes. -/
def hexDigit (n : Nat) : Char :=
  if n % 16 < 10 then Char.ofNat (48 + n % 16) else Char.ofNat (87 + n % 16)

/-- Four-digit hex rendering used in `\uXXXX` escapes. -/
def hex4 (n : Nat) : List Char :=
  [hexDigit (n / 4096), hexDigit (n / 256), hexDigit (n / 16), hexDigit n]

/-- Unicode escape for a code point, with a surrogate pair above the BMP,
as produced by `json.dumps` with its default `ensure_ascii=True`. -/
def uEscape (n : Nat) : List Char :=
  if n < 65536 then
    '\\' :: 'u' :: hex4 n
  else
    let m := n - 65536
    ('\\' :: 'u' :: hex4 (55296 + m / 1024)) ++ ('\\' :: 'u' :: hex4 (56320 + m % 1024))

/-- Escape of one character inside a JSON string, following `json.dumps`
(default `ensure_ascii=True`): short escapes for the common control
characters, `\uXXXX` for the rest of the non-printable/non-ASCII range. -/
def escapeChar (c : Char) : List Char :=
  if c = '"' then ['\\', '"']
  else if c = '\\' then ['\\', '\\']
  else if c = '\n' then ['\\', 'n']
  else if c = '\t' then ['\\', 't']
  else if c = '\r' then ['\\', 'r']
  else if c = Char.ofNat 8 then ['\\', 'b']
  else if c = Char.ofNat 12 then ['\\', 'f']
  else if c.toNat < 32 ∨ 127 ≤ c.toNat then uEscape c.toNat
  else [c]

/-- Escape every character of a JSON string body. -/
def escapeList (l : List Char) : List Char := (l.map escapeChar).flatten

/-- Decimal digits of a natural number, most significant first. -/
def natToChars (n : Nat) : List Char :=
  if h : n < 10 then [Char.ofNat (48 + n % 10)]
  else natToChars (n / 10) ++ [Char.ofNat (48 + n % 10)]
decreasing_by exact Nat.div_lt_self (by omega) (by omega)

/-- Decimal rendering of an integer as `json.dumps` prints it. -/
def intToChars (i : Int) : List Char :=
  if i < 0 then '-' :: natToChars i.natAbs else natToChars i.natAbs

/-- Comma-and-space separator between JSON items, Python's default
`separators=(', ', ': ')`. -/
def commaSep : List (List Char) → List Char
  | [] => []
  | [x] => x
  | x :: y :: rest => x ++ ',' :: ' ' :: commaSep (y :: rest)

/-- Rendering of one object key: quoted escaped key, colon, space. -/
def keyDump (k : String) : List Char :=
  '"' :: (escapeList k.data ++ ['"', ':', ' '])

/-- Model of `json.dumps` producing the character list of the rendered JSON. -/
def jsonDumpL : JsonVal → List Char
  | .null => "null".data
  | .bool true => "true".data
  | .bool false => "false".data
  | .num i => intToChars i
  | .str s => '"' :: (escapeList s.data ++ ['"'])
  | .arr xs => '[' :: (commaSep (xs.attach.map fun x => jsonDumpL x.1) ++ [']'])
  | .obj fs =>
      lbrace :: (commaSep (fs.attach.map fun kv => keyDump kv.1.1 ++ jsonDumpL kv.1.2) ++ [rbrace])
decreasing_by
  · have := List.sizeOf_lt_of_mem x.2
    simp only [JsonVal.arr.sizeOf_spec]
    omega
  · have h1 := List.sizeOf_lt_of_mem kv.2
    have h2 : sizeOf kv.1.2 < sizeOf kv.1 := by
      obtain ⟨a, b⟩ := kv.1
      simp only [Prod.mk.sizeOf_spec]
      omega
    simp only [JsonVal.obj.sizeOf_spec]
    omega

/-- String form of the `json.dumps` model. -/
def jsonDump (v : JsonVal) : String := String.mk (jsonDumpL v)

theorem hexDigit_ne_newline (n : Nat) : hexDigit n ≠ '\n' := by
  have hlt : n % 16 < 16 := Nat.mod_lt _ (by omega)
  have hall : ∀ k, k < 16 →
      (if k < 10 then Char.ofNat (48 + k) else Char.ofNat (87 + k)) ≠ '\n' := by decide
  have := hall (n % 16) hlt
  unfold hexDigit
  exact this

theorem digitChar_ne_newline (n : Nat) : Char.ofNat (48 + n % 10) ≠ '\n' := by
  have hlt : n % 10 < 10 := Nat.mod_lt _ (by omega)
  have hall : ∀ k, k < 10 → Char.ofNat (48 + k) ≠ '\n' := by decide
  exact hall _ hlt

theorem hex4_no_newline (n : Nat) : '\n' ∉ hex4 n := by
  intro h
  simp only [hex4, List.mem_cons, List.not_mem_nil, or_false] at h
  rcases h with h | h | h | h <;> exact hexDigit_ne_newline _ h.symm

theorem uEscape_no_newline (n : Nat) : '\n' ∉ uEscape n := by
  unfold uEscape
  split
  · intro h
    rcases List.mem_cons.1 h with h | h
    · exact absurd h (by decide)
    rcases List.mem_cons.1 h with h | h
    · exact absurd h (by decide)
    exact hex4_no_newline n h
  · intro h
    rcases List.mem_append.1 h with h | h <;>
    · rcases List.mem_cons.1 h with h | h
      · exact absurd h (by decide)
      rcases List.mem_cons.1 h with h | h
      · exact absurd h (by decide)
      exact hex4_no_newline _ h

theorem escapeChar_no_newline (c : Char) : '\n' ∉ escapeChar c := by
  by_cases hc : c = '\n'
  · subst hc; decide
  · unfold escapeChar
    repeat' split
    all_goals first
      | decide
      | exact uEscape_no_newline _
      | (intro h
         rcases List.mem_cons.1 h with h | h
         · exact hc h.symm
         · exact absurd h (by decide))

theorem escapeList_no_newline (l : List Char) : '\n' ∉ escapeList l := by
  intro h
  rw [escapeList, List.mem_flatten] at h
  obtain ⟨piece, hp, hcm⟩ := h
  rw [List.mem_map] at hp
  obtain ⟨c, _, rfl⟩ := hp
  exact escapeChar_no_newline c hcm

theorem natToChars_no_newline (n : Nat) : '\n' ∉ natToChars n := by
  induction n using Nat.strong_induction_on with
  | _ n ih =>
    rw [natToChars]
    split
    · intro h
      rcases List.mem_cons.1 h with h | h
      · exact digitChar_ne_newline n h.symm
      · exact absurd h (by simp)
    · rename_i h10
      intro h
      rcases List.mem_append.1 h with h | h
      · exact ih (n / 10) (Nat.div_lt_self (by omega) (by omega)) h
      · rcases List.mem_cons.1 h with h | h
        · exact digitChar_ne_newline n h.symm
        · exact absurd h (by simp)

theorem intToChars_no_newline (i : Int) : '\n' ∉ intToChars i := by
  unfold intToChars
  split
  · intro h
    rcases List.mem_cons.1 h with h | h
    · exact absurd h (by decide)
    · exact natToChars_no_newline _ h
  · exact natToChars_no_newline _

theorem commaSep_no_newline (l : List (List Char)) (h : ∀ x ∈ l, '\n' ∉ x) :
    '\n' ∉ commaSep l := by
  induction l with
  | nil => simp [commaSep]
  | cons x tl ih =>
    cases tl with
    | nil => simpa [commaSep] using h x (by simp)
    | cons y rest =>
      rw [commaSep]
      intro hmem
      rcases List.mem_append.1 hmem with h' | h'
      · exact h x (by simp) h'
      · rcases List.mem_cons.1 h' with h'' | h''
        · exact absurd h'' (by decide)
        rcases List.mem_cons.1 h'' with h3 | h3
        · exact absurd h3 (by decide)
        · exact ih (fun z hz => h z (by simp [hz])) h3

theorem keyDump_no_newline (k : String) : '\n' ∉ keyDump k := by
  rw [keyDump]
  intro hmem
  rcases List.mem_cons.1 hmem with h | h
  · exact absurd h (by decide)
  · rcases List.mem_append.1 h with h' | h'
    · exact escapeList_no_newline _ h'
    · exact absurd h' (by decide)

theorem jsonDumpL_no_newline (v : JsonVal) : '\n' ∉ jsonDumpL v := by
  have main : ∀ n (v : JsonVal), sizeOf v < n → '\n' ∉ jsonDumpL v := by
    intro n
    induction n with
    | zero => intro v h; omega
    | succ n ih =>
      intro v hv
      match v with
      | .null => rw [jsonDumpL]; decide
      | .bool true => rw [jsonDumpL]; decide
      | .bool false => rw [jsonDumpL]; decide
      | .num i =>
        rw [jsonDumpL]
        exact intToChars_no_newline i
      | .str s =>
        rw [jsonDumpL]
        intro hmem
        rcases List.mem_cons.1 hmem with h | h
        · exact absurd h (by decide)
        rcases List.mem_append.1 h with h' | h'
        · exact escapeList_no_newline _ h'
        · exact absurd h' (by decide)
      | .arr xs =>
        rw [jsonDumpL]
        intro hmem
        rcases List.mem_cons.1 hmem with h | h
        · exact absurd h (by decide)
        rcases List.mem_append.1 h with h' | h'
        · refine commaSep_no_newline _ ?_ h'
          intro piece hp
          rw [List.mem_map] at hp
          obtain ⟨⟨x, hx⟩, _, rfl⟩ := hp
          have hsx : sizeOf x < sizeOf (JsonVal.arr xs) := by
            have := List.sizeOf_lt_of_mem hx
            simp only [JsonVal.arr.sizeOf_spec]
            omega
          have hvn : sizeOf (JsonVal.arr xs) < n + 1 := hv
          exact ih x (by omega)
        · exact absurd h' (by decide)
      | .obj fs =>
        rw [jsonDumpL]
        intro hmem
        rcases List.mem_cons.1 hmem with h | h
        · exact absurd h (by decide)
        rcases List.mem_append.1 h with h' | h'
        · refine commaSep_no_newline _ ?_ h'
          intro piece hp
          rw [List.mem_map] at hp
          obtain ⟨⟨⟨k, x⟩, hx⟩, _, rfl⟩ := hp
          intro hin
          rcases List.mem_append.1 hin with hk | hv'
          · exact keyDump_no_newline _ hk
          · have hsx : sizeOf x < sizeOf (JsonVal.obj fs) := by
              have hmem' := List.sizeOf_lt_of_mem hx
              have : sizeOf x < sizeOf (k, x) := by
                simp only [Prod.mk.sizeOf_spec]
                omega
              simp only [JsonVal.obj.sizeOf_spec]
              omega
            have hvn : sizeOf (JsonVal.obj fs) < n + 1 := hv
            exact ih x (by omega) hv'
        · exact absurd h' (by decide)
  exact main (sizeOf v + 1) v (by omega)

theorem jsonDump_no_newline (v : JsonVal) : '\n' ∉ (jsonDump v).data :=
  jsonDumpL_no_newline v


/-! ## Data model of `logging_utils.py` -/

/-- Python exception abstracted to its class name and its `str()` message. -/
structure PyError where
  className : String
  message : String
deriving DecidableEq

/-- The `TypeError` raised by `isinstance` against a `TypedDict` (PEP 589). -/
def typedDictTypeError : PyError :=
  ⟨"TypeError", "TypedDict does not support instance and class checks"⟩

/-- Python truthiness of an optional string: `bool(None)` and `bool("")` are
`False`, any nonempty string is `True`. -/
def pyTruthy : Option String → Bool
  | none => false
  | some s => s ≠ ""

/-- JSON image of an optional string field (`None` serializes to `null`). -/
def optJson : Option String → JsonVal
  | none => JsonVal.null
  | some s => JsonVal.str s

/-- Modelled from the spec: `tools.ToolResult` is an external collaborator
(`computer_use_demo/tools`, not part of the given sources); per the spec's
collaborator contract it exposes `output` (text or absent), `error` (text or
absent), `base64_image` (encoded image or absent) and `system` (text or
absent). -/
structure ToolResult where
  output : Option String
  error : Option String
  base64_image : Option String
  system : Option String

/-- Content payload handed to the logger, one constructor per branch of
`LogEntry._serialize_content`: a plain dict (a `BetaMessageParam` instance is
a plain dict at runtime, so the dict constructor covers both), an anthropic
`Message` carrying its `model_dump()` image, a `ToolResult`, or anything else
carried via its `str()` form. Which constructor applies never matters in the
source, because the branch dispatch raises before inspecting the content —
see `serialize_content`. -/
inductive PyContent where
  | dict (j : JsonVal) : PyContent
  | message (dump : JsonVal) : PyContent
  | toolResult (r : ToolResult) : PyContent
  | other (s : String) : PyContent

/-- The serialization each branch of `LogEntry._serialize_content` is written
to perform, once reached: dicts pass through, `Message` values are their
field dump, a `ToolResult` is flattened to the fixed four-field shape with
`bool(...)` applied to the image (the source's own comment: just log if image
exists), everything else is stringified. In the source no branch is ever
reached — see `serialize_content`. -/
def serialize_content_intended : PyContent → JsonVal
  | .dict j => j
  | .message dump => dump
  | .toolResult r =>
      JsonVal.obj
        [("output", optJson r.output),
         ("error", optJson r.error),
         ("base64_image", JsonVal.bool (pyTruthy r.base64_image)),
         ("system", optJson r.system)]
  | .other s => JsonVal.str s

/-- Model of the test `isinstance(self.content, (BetaMessageParam, dict))` at
the top of `_serialize_content`. `BetaMessageParam` is a `TypedDict`, and per
PEP 589 `isinstance` against a TypedDict raises `TypeError`; the tuple is
checked left to right, so the raise happens before `dict` is consulted — for
every argument whatsoever. -/
def isinstance_BetaMessageParam_or_dict (_content : PyContent) :
    Except PyError Bool :=
  .error typedDictTypeError

/-- Model of `LogEntry._serialize_content`: its first branch test raises for
every content value, so the method raises `TypeError` on every call and none
of the serialization branches (see `serialize_content_intended`) is ever
taken. -/
def serialize_content (content : PyContent) : Except PyError JsonVal :=
  match isinstance_BetaMessageParam_or_dict content with
  | .error e => .error e
  | .ok _ => .ok (serialize_content_intended content)

/-- Model of the `LogEntry` record: entry type tag, unserialized content,
creation timestamp (abstracted to a counter) and metadata mapping (already
defaulted to empty when absent). -/
structure LogEntry where
  entry_type : String
  content : PyContent
  timestamp : Nat
  metadata : List (String × JsonVal)

/-- Abstraction of `datetime.isoformat()`: an injective, newline-free textual
rendering of the abstract timestamp counter. -/
def isoTimestamp (ts : Nat) : String := String.mk (natToChars ts)

/-- Model of `LogEntry.to_dict`: evaluates `_serialize_content`, so it raises
on every call. -/
def LogEntry.to_dict (e : LogEntry) : Except PyError JsonVal :=
  match serialize_content e.content with
  | .error err => .error err
  | .ok c =>
      .ok (JsonVal.obj
        [("timestamp", JsonVal.str (isoTimestamp e.timestamp)),
         ("type", JsonVal.str e.entry_type),
         ("content", c),
         ("metadata", JsonVal.obj e.metadata)])

/-- The dictionary `to_dict` is written to produce, using the intended
serialization of the content. -/
def LogEntry.to_dict_intended (e : LogEntry) : JsonVal :=
  JsonVal.obj
    [("timestamp", JsonVal.str (isoTimestamp e.timestamp)),
     ("type", JsonVal.str e.entry_type),
     ("content", serialize_content_intended e.content),
     ("metadata", JsonVal.obj e.metadata)]

/-- Model of `InteractionLogger.log_entry`. The log file is the list of
entries appended so far; one call constructs the entry (with `metadata`
defaulted to the empty mapping, `metadata or {}`) and writes
`json.dumps(entry.to_dict()) + '\n'` in append mode. `json.dumps` evaluates
`entry.to_dict()`, which raises `TypeError` on every call, so the exception
propagates to the caller before `f.write` runs and nothing is ever
appended. -/
def log_entry (log : List LogEntry) (ts : Nat) (entry_type : String)
    (content : PyContent) (metadata : Option (List (String × JsonVal))) :
    Except PyError (List LogEntry) :=
  let entry : LogEntry := ⟨entry_type, content, ts, metadata.getD []⟩
  match entry.to_dict with
  | .error e => .error e
  | .ok _ => .ok (log ++ [entry])

/-- Text line a successful write would append for one entry:
`json.dumps(entry.to_dict()) + '\n'`, with the content serialized as the
branches intend. -/
def logLine (e : LogEntry) : String := jsonDump e.to_dict_intended ++ "\n"

/-- Rendering of a log file as its list of written text lines. -/
def logFileLines (log : List LogEntry) : List String := log.map logLine

/-- Model of `InteractionLogger.log_user_input`. -/
def log_user_input (log : List LogEntry) (ts : Nat) (message : JsonVal) :
    Except PyError (List LogEntry) :=
  log_entry log ts "user_input" (.dict message) none

/-- Model of `InteractionLogger.log_assistant_response`. -/
def log_assistant_response (log : List LogEntry) (ts : Nat)
    (response : PyContent) : Except PyError (List LogEntry) :=
  log_entry log ts "assistant_response" response none

/-- Model of `InteractionLogger.log_tool_use`. -/
def log_tool_use (log : List LogEntry) (ts : Nat) (tool_name : String)
    (tool_input : JsonVal) (tool_id : String) : Except PyError (List LogEntry) :=
  log_entry log ts "tool_use"
    (.dict (JsonVal.obj [("name", JsonVal.str tool_name), ("input", tool_input)]))
    (some [("tool_id", JsonVal.str tool_id)])

/-- Model of `InteractionLogger.log_tool_result`. -/
def log_tool_result (log : List LogEntry) (ts : Nat) (result : ToolResult)
    (tool_id : String) : Except PyError (List LogEntry) :=
  log_entry log ts "tool_result" (.toolResult result)
    (some [("tool_id", JsonVal.str tool_id)])

/-- Model of `InteractionLogger.log_error`: the error is logged as a dict of
its class name and message (and the call, like every logger call, raises). -/
def log_error (log : List LogEntry) (ts : Nat) (errType errMsg : String) :
    Except PyError (List LogEntry) :=
  log_entry log ts "error"
    (.dict (JsonVal.obj
      [("type", JsonVal.str errType), ("message", JsonVal.str errMsg)]))
    none

/-- Python object passed as a request/response to `log_api_interaction`:
either it has a `__dict__` (whose JSON image is carried) or it does not; its
`str()` form is carried in both cases. -/
inductive PyObj where
  | withDict (d : List (String × JsonVal)) (strForm : String) : PyObj
  | plain (strForm : String) : PyObj

/-- Best-effort dump used by `log_api_interaction`: `x.__dict__` when
available, `str(x)` otherwise. -/
def pyDumpJson : PyObj → JsonVal
  | .withDict d _ => JsonVal.obj d
  | .plain s => JsonVal.str s

/-- Content dict built by `InteractionLogger.log_api_interaction` — this
construction runs and succeeds in the source (no TypedDict is involved); an
absent error is recorded as `None` (JSON `null`), so the key is always
present. The error argument is carried as its `str()` form. -/
def apiContent (request response : PyObj) (error : Option String) : JsonVal :=
  JsonVal.obj
    [("request", pyDumpJson request),
     ("response", pyDumpJson response),
     ("error", match error with | some e => JsonVal.str e | none => JsonVal.null)]

/-- Model of `InteractionLogger.log_api_interaction`: builds the content
dict, then calls `log_entry`, which raises before writing. -/
def log_api_interaction (log : List LogEntry) (ts : Nat)
    (request response : PyObj) (error : Option String) :
    Except PyError (List LogEntry) :=
  log_entry log ts "api_interaction" (.dict (apiContent request response error)) none

/-- Lookup of a key in an association list of JSON object fields. -/
def lookupFields : List (String × JsonVal) → String → Option JsonVal
  | [], _ => none
  | (k, v) :: rest, key => if k = key then some v else lookupFields rest key

/-- Lookup of a field in a JSON value (none on non-objects). -/
def JsonVal.lookup (j : JsonVal) (key : String) : Option JsonVal :=
  match j with
  | .obj fields => lookupFields fields key
  | _ => none

/-! ## Data model of `command_line.py` -/

/-- Modelled from the spec: the enumerated set of supported backends from the
external `computer_use_demo.loop` module; `command_line.py` references exactly
the members `ANTHROPIC`, `BEDROCK` and `VERTEX`, in this order. -/
inductive APIProvider where
  | anthropic : APIProvider
  | bedrock : APIProvider
  | vertex : APIProvider
deriving DecidableEq

/-- Enumeration order of `list(APIProvider)` used by `configure_settings`. -/
def APIProviderList : List APIProvider :=
  [APIProvider.anthropic, APIProvider.bedrock, APIProvider.vertex]

/-- External credential environment probed by `validate_auth`: AWS
credentials discoverable by boto3, the `CLOUD_ML_REGION` environment variable
(`none` when unset), and whether `google.auth.default` succeeds. -/
structure ExternalCreds where
  awsCredentials : Bool
  cloudMlRegion : Option String
  googleCredsOk : Bool

/-- Python truthiness of `os.environ.get(...)`: `None` and `""` are falsy. -/
def envTruthy : Option String → Bool
  | none => false
  | some s => s ≠ ""

/-- Model of `CommandLineInterface.validate_auth`: a diagnostic string when
credentials for the selected provider are missing, `None` otherwise. -/
def validate_auth (provider : APIProvider) (api_key : String)
    (env : ExternalCreds) : Option String :=
  match provider with
  | .anthropic =>
      if api_key = "" then some "Enter your Anthropic API key to continue."
      else none
  | .bedrock =>
      if !env.awsCredentials then
        some "You must have AWS credentials set up to use the Bedrock API."
      else none
  | .vertex =>
      if !envTruthy env.cloudMlRegion then
        some "Set the CLOUD_ML_REGION environment variable to use the Vertex API."
      else if !env.googleCredsOk then
        some "Your google cloud credentials are not set up correctly."
      else none

/-! ### String helpers modelling Python `str` methods (ASCII range) -/

/-- Whitespace characters removed by Python `str.strip()` (ASCII range). -/
def pySpace (c : Char) : Bool :=
  c = ' ' ∨ c = '\t' ∨ c = '\n' ∨ c = '\r' ∨ c = Char.ofNat 11 ∨ c = Char.ofNat 12

/-- Character list form of `str.strip()`. -/
def stripChars (l : List Char) : List Char :=
  ((l.dropWhile pySpace).reverse.dropWhile pySpace).reverse

/-- Lowercasing of one character, the ASCII case of Python `str.lower()`. -/
def lowerChar (c : Char) : Char :=
  if 65 ≤ c.toNat ∧ c.toNat ≤ 90 then Char.ofNat (c.toNat + 32) else c

/-- Character list form of `str.lower()`. -/
def lowerL (l : List Char) : List Char := l.map lowerChar

/-- String form of `str.lower()`. -/
def pyLower (s : String) : String := String.mk (lowerL s.data)

/-- ASCII decimal digit test. -/
def isAsciiDigit (c : Char) : Bool := 48 ≤ c.toNat ∧ c.toNat ≤ 57

/-- Model of `str.isdigit()` (ASCII range: nonempty and all digits). -/
def pyIsDigit (l : List Char) : Bool := !l.isEmpty && l.all isAsciiDigit

/-- Numeric value of a digit string, most significant first. -/
def digitsVal (l : List Char) : Nat :=
  l.foldl (fun acc c => acc * 10 + (c.toNat - 48)) 0

/-- Tail of a Python integer literal after its first digit: digits with
single underscores allowed only between digits. -/
def underscoreGrouped : List Char → Bool
  | [] => true
  | '_' :: c :: rest => isAsciiDigit c && underscoreGrouped rest
  | ['_'] => false
  | c :: rest => isAsciiDigit c && underscoreGrouped rest

/-- Test for a nonempty run of digits with legal underscore grouping. -/
def digitRun : List Char → Bool
  | [] => false
  | c :: rest => isAsciiDigit c && underscoreGrouped rest

/-- Value of a digit run once grouping underscores are removed. -/
def digitRunVal (l : List Char) : Nat := digitsVal (l.filter fun c => c != '_')

/-- Model of Python's built-in `int(str)` (ASCII range): surrounding
whitespace stripped, optional sign, then a digit run with optional underscore
grouping; `none` models the `ValueError` raised on anything else. -/
def parsePyInt (s : String) : Option Int :=
  match stripChars s.data with
  | '+' :: rest => if digitRun rest then some (digitRunVal rest : Int) else none
  | '-' :: rest => if digitRun rest then some (-(digitRunVal rest : Int)) else none
  | l => if digitRun l then some (digitRunVal l : Int) else none

/-! ### Driver state -/

/-- Persisted config files under `~/.anthropic` (`none` = file absent);
`_save_to_storage` writes are modelled as always succeeding. -/
structure ConfigFiles where
  api_key_file : Option String
  system_prompt_file : Option String

/-- State of a `CommandLineInterface` instance: its mutable attributes, the
logger's appended entries with the timestamp counter, the persisted config
files, and a ghost counter of entries into the `Processing` state (sampling
loop invocations) used to observe the session state machine. -/
structure CLIState where
  messages : List JsonVal
  api_key : String
  provider : APIProvider
  model : String
  custom_system_prompt : String
  only_n_most_recent_images : Int
  hide_images : Bool
  log : List LogEntry
  files : ConfigFiles
  clock : Nat
  processingCount : Nat

/-- User message dict appended by `process_user_input`. -/
def userMessage (user_input : String) : JsonVal :=
  JsonVal.obj
    [("role", JsonVal.str "user"),
     ("content", JsonVal.arr
        [JsonVal.obj [("type", JsonVal.str "text"), ("text", JsonVal.str user_input)]])]

/-- Assistant content block handed to `output_callback` by the sampling loop:
a text block, a tool-use block, a dict of another type, or a non-dict value
(the last two are ignored by the callback). -/
inductive ContentBlock where
  | text (t : String) : ContentBlock
  | toolUse (tool_name : String) (tool_input : JsonVal) (id : String) : ContentBlock
  | otherDict (j : JsonVal) : ContentBlock
  | nonDict (s : String) : ContentBlock

/-- One callback invocation performed by the external sampling loop. -/
inductive CallbackInvocation where
  | output (block : ContentBlock) : CallbackInvocation
  | toolOutput (result : ToolResult) (tool_id : String) : CallbackInvocation
  | apiResponse (request response : PyObj) (error : Option String) : CallbackInvocation

/-- Interface of the external `sampling_loop` collaborator: from the message
history it is given, the callback invocations it performs (in order) and
either the updated history it returns or the error it raises. In the source
this collaborator is never reached: `log_user_input` raises first. -/
def SamplingLoop : Type :=
  List JsonVal → List CallbackInvocation × Except String (List JsonVal)

/-- Intended-level append of one logger call to the driver state, advancing
the timestamp counter; used only in the unreachable post-`log_user_input`
branch below to document the wiring the source writes. -/
def appendEntry (s : CLIState) (entry_type : String) (content : PyContent)
    (metadata : Option (List (String × JsonVal))) : CLIState :=
  { s with log := s.log ++ [⟨entry_type, content, s.clock, metadata.getD []⟩],
           clock := s.clock + 1 }

/-- Wiring of `CommandLineInterface.output_callback` (unreachable in the
source): text blocks logged as assistant responses, tool-use blocks as tool
use; anything else only prints. -/
def output_callback (s : CLIState) : ContentBlock → CLIState
  | .text t =>
      appendEntry s "assistant_response"
        (.dict (JsonVal.obj [("type", JsonVal.str "text"), ("text", JsonVal.str t)])) none
  | .toolUse tool_name tool_input id =>
      appendEntry s "tool_use"
        (.dict (JsonVal.obj [("name", JsonVal.str tool_name), ("input", tool_input)]))
        (some [("tool_id", JsonVal.str id)])
  | .otherDict _ => s
  | .nonDict _ => s

/-- Wiring of `CommandLineInterface.tool_output_callback` (unreachable). -/
def tool_output_callback (s : CLIState) (result : ToolResult) (tool_id : String) :
    CLIState :=
  appendEntry s "tool_result" (.toolResult result)
    (some [("tool_id", JsonVal.str tool_id)])

/-- Wiring of `CommandLineInterface.api_response_callback` (unreachable). -/
def api_response_callback (s : CLIState) (request response : PyObj)
    (error : Option String) : CLIState :=
  appendEntry s "api_interaction" (.dict (apiContent request response error)) none

/-- Dispatch of one callback invocation to the driver's callbacks. -/
def applyCallback (s : CLIState) : CallbackInvocation → CLIState
  | .output block => output_callback s block
  | .toolOutput result tool_id => tool_output_callback s result tool_id
  | .apiResponse request response error => api_response_callback s request response error

/-- Model of `CommandLineInterface.process_user_input`: append the user
message to `self.messages` (this mutation persists), then call
`log_user_input` — which sits outside the `try` block and raises `TypeError`
on every call, so the exception escapes this method with the message already
appended and the sampling loop is never invoked. The `.ok` branch transcribes
the `try` body the source writes for the case that could never be reached. -/
def process_user_input (sl : SamplingLoop) (s : CLIState) (user_input : String) :
    CLIState × Option PyError :=
  let message := userMessage user_input
  let s1 := { s with messages := s.messages ++ [message] }
  match log_user_input s1.log s1.clock message with
  | .error e => (s1, some e)
  | .ok newLog =>
      let s2 := { s1 with log := newLog, clock := s1.clock + 1,
                          processingCount := s1.processingCount + 1 }
      let r := sl s2.messages
      let s3 := r.1.foldl applyCallback s2
      match r.2 with
      | .ok newMessages => ({ s3 with messages := newMessages }, none)
      | .error _ => (s3, none)

/-- Inputs consumed by the `input()` calls inside `configure_settings`, one
field per prompt in source order. -/
structure ConfigInputs where
  provider_choice : String
  new_model : String
  new_key : String
  n_images : String
  hide_images_answer : String
  new_prompt : String

/-- Model of `CommandLineInterface.configure_settings` over the driver state,
parameterized by the external `PROVIDER_TO_DEFAULT_MODEL_NAME` mapping from
`computer_use_demo.loop`. Each section mirrors the source: provider choice
(digit in range switches provider and resets the model to its default), model
name, Anthropic API key (saved to storage), image retention count (invalid
integers recovered, prior value kept), hide-images toggle, custom system
prompt (saved to storage; the literal `clear` empties it). No logger call is
made here, so no exception arises. -/
def configure_settings (defaultModel : APIProvider → String) (inp : ConfigInputs)
    (s : CLIState) : CLIState :=
  let s :=
    if pyIsDigit inp.provider_choice.data ∧
        1 ≤ digitsVal inp.provider_choice.data ∧
        digitsVal inp.provider_choice.data ≤ APIProviderList.length then
      let p := APIProviderList.getD (digitsVal inp.provider_choice.data - 1) .anthropic
      { s with provider := p, model := defaultModel p }
    else s
  let s := if inp.new_model ≠ "" then { s with model := inp.new_model } else s
  let s :=
    if s.provider = .anthropic ∧ inp.new_key ≠ "" then
      { s with api_key := inp.new_key,
               files := { s.files with api_key_file := some inp.new_key } }
    else s
  let s :=
    if inp.n_images ≠ "" then
      match parsePyInt inp.n_images with
      | some k => { s with only_n_most_recent_images := k }
      | none => s
    else s
  let hide := pyLower inp.hide_images_answer
  let s :=
    if hide = "y" ∨ hide = "n" then { s with hide_images := (hide = "y") } else s
  let s :=
    if inp.new_prompt ≠ "" then
      if pyLower inp.new_prompt = "clear" then
        { s with custom_system_prompt := "",
                 files := { s.files with system_prompt_file := some "" } }
      else
        { s with custom_system_prompt := inp.new_prompt,
                 files := { s.files with system_prompt_file := some inp.new_prompt } }
    else s
  s

/-- Model of `CommandLineInterface.show_settings`: the read-only tuple of
configuration values it prints. -/
def show_settings (s : CLIState) :
    APIProvider × String × Int × Bool × String :=
  (s.provider, s.model, s.only_n_most_recent_images, s.hide_images,
   s.custom_system_prompt)

/-- One event observed by the interaction loop's `input()` call: a line of
text (bundled with the answers `configure_settings` would read if the line
turns out to be the `:config` command), an end-of-input signal (`input()`
raising `EOFError`), or an interrupt signal (`KeyboardInterrupt`). -/
inductive InputEvent where
  | line (raw : String) (answers : ConfigInputs) : InputEvent
  | eofSignal : InputEvent
  | interrupt : InputEvent

/-- Outcome of one iteration of the `while True` body: the loop continues,
`break`s out (quit/exit), or an exception escapes the iteration's handlers —
which ends `run` itself with that exception (the process crashes). -/
inductive StepResult where
  | next : StepResult
  | broke : StepResult
  | crashed (e : PyError) : StepResult
deriving DecidableEq

/-- Test modelling `user_input.startswith(':')` on a character list. -/
def isCommandLine : List Char → Bool
  | ':' :: _ => true
  | _ => false

/-- Dispatch of a (already lowercased) `:`-command, mirroring the
`if`/`elif` chain of `CommandLineInterface.run`; none of these paths calls
the logger. `broke` models the `break` on quit/exit. -/
def dispatchCommand (defaultModel : APIProvider → String) (answers : ConfigInputs)
    (s : CLIState) (command : String) : CLIState × StepResult :=
  if command = "quit" ∨ command = "exit" then (s, .broke)
  else if command = "help" then (s, .next)
  else if command = "config" then (configure_settings defaultModel answers s, .next)
  else if command = "settings" then (s, .next)
  else if command = "clear" then ({ s with messages := [] }, .next)
  else (s, .next)

/-- The loop's generic `except Exception` handler: prints the error, then
calls `logger.log_error(e)` — which itself raises `TypeError` on every call;
that second exception escapes the handler and ends the loop. The `.ok` branch
transcribes the write that a sound logger would perform. -/
def genericHandler (s : CLIState) (e : PyError) : CLIState × StepResult :=
  match log_error s.log s.clock e.className e.message with
  | .error e2 => (s, .crashed e2)
  | .ok newLog => ({ s with log := newLog, clock := s.clock + 1 }, .next)

/-- One iteration of the `while True` body of `CommandLineInterface.run`:
strip the input; skip empty lines; on a `:` line lowercase the rest
(`user_input[1:].lower()`, modelled by `tail` and `lowerL`) and dispatch;
otherwise process the text as a user turn — whose escaping `TypeError`
reaches the generic handler. `KeyboardInterrupt` prints a hint and
continues; `EOFError` is caught by the generic handler. -/
def runStep (defaultModel : APIProvider → String) (sl : SamplingLoop)
    (s : CLIState) : InputEvent → CLIState × StepResult
  | .interrupt => (s, .next)
  | .eofSignal => genericHandler s ⟨"EOFError", "EOF when reading a line"⟩
  | .line raw answers =>
      let stripped := stripChars raw.data
      if stripped = [] then (s, .next)
      else if isCommandLine stripped then
        dispatchCommand defaultModel answers s (String.mk (lowerL stripped.tail))
      else
        match process_user_input sl s (String.mk stripped) with
        | (s', none) => (s', .next)
        | (s', some e) => genericHandler s' e

/-- The interaction loop of `CommandLineInterface.run` over a finite list of
observed input events: `none` means the loop ended by `break` or ran out of
modelled events, `some e` that the exception `e` escaped the loop (and hence
`run`), crashing the session. -/
def runLoop (defaultModel : APIProvider → String) (sl : SamplingLoop) :
    CLIState → List InputEvent → CLIState × Option PyError
  | s, [] => (s, none)
  | s, ev :: rest =>
      match runStep defaultModel sl s ev with
      | (s', .next) => runLoop defaultModel sl s' rest
      | (s', .broke) => (s', none)
      | (s', .crashed e) => (s', some e)

/-- Model of `CommandLineInterface.run`: validate credentials first and
return immediately on a diagnostic, otherwise enter the interaction loop. -/
def run (defaultModel : APIProvider → String) (sl : SamplingLoop)
    (env : ExternalCreds) (s : CLIState) (events : List InputEvent) :
    CLIState × Option PyError :=
  match validate_auth s.provider s.api_key env with
  | some _ => (s, none)
  | none => runLoop defaultModel sl s events

/-! ## Helper lemmas -/

theorem log_entry_raises (log : List LogEntry) (ts : Nat) (t : String)
    (c : PyContent) (m : Option (List (String × JsonVal))) :
    log_entry log ts t c m = .error typedDictTypeError := rfl

theorem dropWhile_eq_self_of {α : Type} {p : α → Bool} {l : List α}
    (h : ∀ c ∈ l, p c = false) : l.dropWhile p = l := by
  cases l with
  | nil => rfl
  | cons c cs =>
    rw [List.dropWhile_cons, h c (by simp)]
    simp

theorem stripChars_eq_self (l : List Char) (h : ∀ c ∈ l, pySpace c = false) :
    stripChars l = l := by
  unfold stripChars
  rw [dropWhile_eq_self_of h,
    dropWhile_eq_self_of (fun c hc => h c (List.mem_reverse.1 hc)),
    List.reverse_reverse]

theorem pySpace_lowerChar (c : Char) (h : pySpace c = false) :
    pySpace (lowerChar c) = false := by
  by_cases hc : 65 ≤ c.toNat ∧ c.toNat ≤ 90
  · have h1 : lowerChar c = Char.ofNat (c.toNat + 32) := by
      unfold lowerChar
      rw [if_pos hc]
    have hall : ∀ n, n < 91 → 65 ≤ n → pySpace (Char.ofNat (n + 32)) = false := by
      decide
    rw [h1]
    exact hall c.toNat (by omega) hc.1
  · have h1 : lowerChar c = c := by
      unfold lowerChar
      rw [if_neg hc]
    rw [h1]
    exact h

theorem lowerChar_idem (c : Char) : lowerChar (lowerChar c) = lowerChar c := by
  by_cases hc : 65 ≤ c.toNat ∧ c.toNat ≤ 90
  · have h1 : lowerChar c = Char.ofNat (c.toNat + 32) := by
      unfold lowerChar
      rw [if_pos hc]
    have hall : ∀ n, n < 91 → 65 ≤ n →
        lowerChar (Char.ofNat (n + 32)) = Char.ofNat (n + 32) := by decide
    rw [h1]
    exact hall c.toNat (by omega) hc.1
  · have h1 : lowerChar c = c := by
      unfold lowerChar
      rw [if_neg hc]
    rw [h1, h1]

theorem lowerL_idem (l : List Char) : lowerL (lowerL l) = lowerL l := by
  induction l with
  | nil => rfl
  | cons c cs ih =>
    simp only [lowerL, List.map_cons] at ih ⊢
    rw [lowerChar_idem c, ih]

theorem runStep_user_turn_crashes (dm : APIProvider → String)
    (sl : SamplingLoop) (s : CLIState) (u : String) (ans : ConfigInputs)
    (h1 : stripChars u.data = u.data) (h2 : u.data ≠ [])
    (h3 : isCommandLine u.data = false) :
    runStep dm sl s (.line u ans)
      = ({ s with messages := s.messages ++ [userMessage u] },
         .crashed typedDictTypeError) := by
  simp only [runStep, h1]
  rw [if_neg h2, if_neg (by simp [h3])]
  rfl

/-! ## Concrete fixtures used by witnesses and counterexamples -/

/-- Concrete default-model mapping standing in for the external
`PROVIDER_TO_DEFAULT_MODEL_NAME`. -/
def dmW : APIProvider → String := fun _ => "claude-model"

/-- Concrete sampling loop that echoes the history back (it is never
reached: `log_user_input` raises on every turn before it is invoked). -/
def slW : SamplingLoop := fun ms => ([], .ok ms)

/-- Concrete freshly-initialized driver state with a configured key. -/
def s0 : CLIState :=
  { messages := [], api_key := "sk-test", provider := .anthropic,
    model := "claude-model", custom_system_prompt := "",
    only_n_most_recent_images := 10, hide_images := false, log := [],
    files := ⟨none, none⟩, clock := 0, processingCount := 0 }

/-- Concrete driver state with an empty API key. -/
def s0NoKey : CLIState := { s0 with api_key := "" }

/-- Concrete credential environment with nothing configured. -/
def env0 : ExternalCreds := ⟨false, none, false⟩

/-- Empty answers for configuration prompts. -/
def ansW : ConfigInputs := ⟨"", "", "", "", "", ""⟩

/-- Configuration answers with a non-integer image-retention reply. -/
def inpBad : ConfigInputs := ⟨"", "", "", "twelve", "", ""⟩

/-! ## Claims about the logger -/

/-- C1 (code bug): the ToolResult branch of `_serialize_content` — whose own
inline comment documents that only the presence of an image is to be logged —
serializes `base64_image` as the boolean presence of the payload, and the log
line it would write is independent of the raw bytes (they never appear); but
the TypedDict `isinstance` check at the top of the method raises first, so in
the source `log_tool_result` raises `TypeError` on every call and no
ToolResult is ever serialized or written at all. -/
theorem tool_result_serialization_code_bug
    (r : ToolResult) (log : List LogEntry) (ts : Nat) (tool_id : String)
    (img img' : Option String) (h : pyTruthy img = pyTruthy img') :
    log_tool_result log ts r tool_id = .error typedDictTypeError
    ∧ (serialize_content_intended (.toolResult r)).lookup "base64_image"
      = some (JsonVal.bool (pyTruthy r.base64_image))
    ∧ logLine ⟨"tool_result", .toolResult { r with base64_image := img }, ts,
        [("tool_id", JsonVal.str tool_id)]⟩
      = logLine ⟨"tool_result", .toolResult { r with base64_image := img' }, ts,
        [("tool_id", JsonVal.str tool_id)]⟩ := by
  refine ⟨rfl, rfl, ?_⟩
  simp [logLine, LogEntry.to_dict_intended, serialize_content_intended, h]

/-- Witness for C1 at a concrete tool result carrying image bytes. -/
theorem tool_result_serialization_code_bug_witness :
    pyTruthy (some "RAWIMAGEBYTES") = pyTruthy (some "X")
    ∧ (log_tool_result [] 0
          (ToolResult.mk (some "out") none (some "RAWIMAGEBYTES") none) "toolu_1"
        = .error typedDictTypeError
       ∧ (serialize_content_intended
            (.toolResult ⟨some "out", none, some "RAWIMAGEBYTES", none⟩)).lookup
            "base64_image"
        = some (JsonVal.bool
            (pyTruthy (ToolResult.mk (some "out") none (some "RAWIMAGEBYTES")
              none).base64_image))
       ∧ logLine ⟨"tool_result",
            .toolResult { ToolResult.mk (some "out") none (some "RAWIMAGEBYTES")
                none with base64_image := some "RAWIMAGEBYTES" }, 0,
            [("tool_id", JsonVal.str "toolu_1")]⟩
        = logLine ⟨"tool_result",
            .toolResult { ToolResult.mk (some "out") none (some "RAWIMAGEBYTES")
                none with base64_image := some "X" }, 0,
            [("tool_id", JsonVal.str "toolu_1")]⟩) :=
  ⟨by decide,
   tool_result_serialization_code_bug
     ⟨some "out", none, some "RAWIMAGEBYTES", none⟩ [] 0 "toolu_1"
     (some "RAWIMAGEBYTES") (some "X") (by decide)⟩

/-- C4 (code bug): the logger is written as an append-only, one-line-per-call
audit trail — each `log_*` wrapper is exactly one `log_entry` call, and the
line a call is written to append is one newline-terminated JSON rendering of
the entry with no interior newline, independent of the file contents (never
read back); but in the source every call raises `TypeError` out of
`json.dumps(entry.to_dict())` (the TypedDict `isinstance` in
`_serialize_content`) before `f.write` runs, so nothing is ever appended. -/
theorem logger_typeerror_never_appends
    (log : List LogEntry) (ts : Nat) (t : String) (c : PyContent)
    (m : Option (List (String × JsonVal))) (msg : JsonVal) (resp : PyContent)
    (tool_name : String) (tool_input : JsonVal) (tool_id : String)
    (result : ToolResult) (errType errMsg : String) (request response : PyObj)
    (apiErr : Option String) :
    log_entry log ts t c m = .error typedDictTypeError
    ∧ log_user_input log ts msg = log_entry log ts "user_input" (.dict msg) none
    ∧ log_assistant_response log ts resp
        = log_entry log ts "assistant_response" resp none
    ∧ log_tool_use log ts tool_name tool_input tool_id
        = log_entry log ts "tool_use"
            (.dict (JsonVal.obj [("name", JsonVal.str tool_name), ("input", tool_input)]))
            (some [("tool_id", JsonVal.str tool_id)])
    ∧ log_tool_result log ts result tool_id
        = log_entry log ts "tool_result" (.toolResult result)
            (some [("tool_id", JsonVal.str tool_id)])
    ∧ log_error log ts errType errMsg
        = log_entry log ts "error"
            (.dict (JsonVal.obj
              [("type", JsonVal.str errType), ("message", JsonVal.str errMsg)])) none
    ∧ log_api_interaction log ts request response apiErr
        = log_entry log ts "api_interaction"
            (.dict (apiContent request response apiErr)) none
    ∧ logFileLines (log ++ [⟨t, c, ts, m.getD []⟩])
        = logFileLines log
          ++ [jsonDump (LogEntry.to_dict_intended ⟨t, c, ts, m.getD []⟩) ++ "\n"]
    ∧ '\n' ∉ (jsonDump (LogEntry.to_dict_intended ⟨t, c, ts, m.getD []⟩)).data := by
  refine ⟨rfl, rfl, rfl, rfl, rfl, rfl, rfl, ?_, jsonDump_no_newline _⟩
  simp [logFileLines, logLine]

/-- C8 (amended): `log_api_interaction` builds content
`{request, response, error}` — request and response as the structured
`__dict__` dump when available and the stringified form otherwise, and the
error field a description when an error is supplied and `null` (present, not
absent) otherwise — and this content would pass through serialization
unchanged under entry type `api_interaction`; but the subsequent `log_entry`
call raises `TypeError` (TypedDict `isinstance`) before writing, so no entry
is ever appended. -/
theorem log_api_interaction_builds_content_but_raises
    (log : List LogEntry) (ts : Nat) (request response : PyObj)
    (error : Option String) (d : List (String × JsonVal)) (sf : String) :
    (apiContent request response error).lookup "request" = some (pyDumpJson request)
    ∧ (apiContent request response error).lookup "response" = some (pyDumpJson response)
    ∧ (apiContent request response error).lookup "error"
        = some (match error with | some e => JsonVal.str e | none => JsonVal.null)
    ∧ pyDumpJson (PyObj.withDict d sf) = JsonVal.obj d
    ∧ pyDumpJson (PyObj.plain sf) = JsonVal.str sf
    ∧ log_api_interaction log ts request response error = .error typedDictTypeError
    ∧ serialize_content_intended (.dict (apiContent request response error))
        = apiContent request response error :=
  ⟨rfl, rfl, rfl, rfl, rfl, rfl, rfl⟩

/-- C8 counterexample: with no error supplied, the constructed content
contains the key `error` bound to `null` — present, not absent — and the
call then raises instead of logging the claimed entry. -/
theorem log_api_interaction_error_field_present :
    (apiContent (PyObj.plain "req") (PyObj.plain "resp") none).lookup "error"
      = some JsonVal.null
    ∧ (apiContent (PyObj.plain "req") (PyObj.plain "resp") none).lookup "error"
      ≠ none
    ∧ log_api_interaction [] 0 (PyObj.plain "req") (PyObj.plain "resp") none
      = .error typedDictTypeError :=
  ⟨rfl, fun h => Option.noConfusion h, rfl⟩

/-! ## Claims about the interaction loop -/

/-- C2 (amended): whatever the sampling loop and however many user inputs
follow, the first non-command user input already ends the session:
`log_user_input` raises `TypeError` (TypedDict `isinstance` in
`_serialize_content`) before the sampling loop is invoked, the exception
escapes to the loop's generic handler, whose own `log_error` raises again and
terminates the loop with the exception — so the log receives no entry for any
turn (in particular not the claimed user_input, user_input, error, user_input
sequence), and the later inputs are never processed. -/
theorem first_user_turn_crashes (dm : APIProvider → String) (sl : SamplingLoop)
    (s : CLIState) (u1 : String) (a1 : ConfigInputs) (more : List InputEvent)
    (h1 : stripChars u1.data = u1.data) (h2 : u1.data ≠ [])
    (h3 : isCommandLine u1.data = false) :
    runLoop dm sl s (.line u1 a1 :: more)
      = ({ s with messages := s.messages ++ [userMessage u1] },
         some typedDictTypeError)
    ∧ ({ s with messages := s.messages ++ [userMessage u1] } : CLIState).log = s.log
    ∧ ({ s with messages := s.messages ++ [userMessage u1] } : CLIState).processingCount
        = s.processingCount := by
  refine ⟨?_, rfl, rfl⟩
  simp only [runLoop]
  rw [runStep_user_turn_crashes dm sl s u1 a1 h1 h2 h3]

/-- Witness for C2 (amended): a concrete turn followed by another pending
line that is never processed. -/
theorem first_user_turn_crashes_witness :
    (stripChars "hello".data = "hello".data ∧ "hello".data ≠ []
      ∧ isCommandLine "hello".data = false)
    ∧ (runLoop dmW slW s0 [.line "hello" ansW, .line "again" ansW]
        = ({ s0 with messages := s0.messages ++ [userMessage "hello"] },
           some typedDictTypeError)
       ∧ ({ s0 with messages := s0.messages ++ [userMessage "hello"] } : CLIState).log
          = s0.log
       ∧ ({ s0 with messages := s0.messages ++ [userMessage "hello"] } : CLIState).processingCount
          = s0.processingCount) :=
  ⟨⟨by decide, by decide, rfl⟩,
   first_user_turn_crashes dmW slW s0 "hello" ansW [.line "again" ansW]
     (by decide) (by decide) rfl⟩

/-- C2 counterexample: in the concrete three-input scenario the session
crashes during the first turn with an empty log — the log's entry types are
`[]`, not the claimed user_input, user_input, error, user_input sequence. -/
theorem three_turns_crash_empty_log :
    runLoop dmW slW s0 [.line "a" ansW, .line "b" ansW, .line "c" ansW]
      = ({ s0 with messages := [userMessage "a"] }, some typedDictTypeError)
    ∧ (runLoop dmW slW s0
        [.line "a" ansW, .line "b" ansW, .line "c" ansW]).1.log.map
        LogEntry.entry_type = []
    ∧ (runLoop dmW slW s0
        [.line "a" ansW, .line "b" ansW, .line "c" ansW]).1.log.map
        LogEntry.entry_type
      ≠ ["user_input", "user_input", "error", "user_input"] :=
  ⟨rfl, rfl, by decide⟩

/-- C3: in the Idle state, both the `:quit`/`:exit` command and an
end-of-input signal terminate the session, and none of the remaining input
events is processed. Quit/exit break out of the loop cleanly; `EOFError`
reaches the generic handler, whose `log_error` call itself raises
`TypeError`, which escapes the handler and ends the loop (with the state —
including the log — unchanged). -/
theorem quit_or_eof_terminates (dm : APIProvider → String) (sl : SamplingLoop)
    (s : CLIState) (ans : ConfigInputs) (rest : List InputEvent) (cmd : String)
    (h : cmd = "quit" ∨ cmd = "exit") :
    runLoop dm sl s (.line (":" ++ cmd) ans :: rest) = (s, none)
    ∧ runLoop dm sl s (.eofSignal :: rest) = (s, some typedDictTypeError) := by
  constructor
  · rcases h with rfl | rfl <;> rfl
  · rfl

/-- Witness for C3 at the concrete command `:quit` with a pending later
line that is never processed. -/
theorem quit_or_eof_terminates_witness :
    ("quit" = "quit" ∨ "quit" = "exit")
    ∧ (runLoop dmW slW s0 [.line (":" ++ "quit") ansW, .line "later" ansW]
        = (s0, none)
       ∧ runLoop dmW slW s0 [.eofSignal, .line "later" ansW]
        = (s0, some typedDictTypeError)) :=
  ⟨Or.inl rfl,
   quit_or_eof_terminates dmW slW s0 ansW [.line "later" ansW] "quit"
     (Or.inl rfl)⟩

/-- C5 (code bug): the `try`/`except` in `process_user_input` is written to
catch a sampling-loop exception, print it, and let the session continue with
the just-appended user message kept; but `log_user_input` sits before the
`try` and raises `TypeError` on every call, so the sampling loop is never
invoked (the Processing counter never advances), the exception escapes
`process_user_input` with the user message already appended, and the loop's
generic handler's own `log_error` raises again — ending the session instead
of returning it to Idle. -/
theorem user_turn_typeerror_before_sampling (dm : APIProvider → String)
    (sl : SamplingLoop) (s : CLIState) (u : String) (ans : ConfigInputs)
    (rest : List InputEvent)
    (h1 : stripChars u.data = u.data) (h2 : u.data ≠ [])
    (h3 : isCommandLine u.data = false) :
    process_user_input sl s u
      = ({ s with messages := s.messages ++ [userMessage u] },
         some typedDictTypeError)
    ∧ (process_user_input sl s u).1.processingCount = s.processingCount
    ∧ (process_user_input sl s u).1.messages = s.messages ++ [userMessage u]
    ∧ runLoop dm sl s (.line u ans :: rest)
      = ({ s with messages := s.messages ++ [userMessage u] },
         some typedDictTypeError) := by
  refine ⟨rfl, rfl, rfl, ?_⟩
  simp only [runLoop]
  rw [runStep_user_turn_crashes dm sl s u ans h1 h2 h3]

/-- Witness for C5 at a concrete user turn. -/
theorem user_turn_typeerror_before_sampling_witness :
    (stripChars "hello".data = "hello".data ∧ "hello".data ≠ []
      ∧ isCommandLine "hello".data = false)
    ∧ (process_user_input slW s0 "hello"
        = ({ s0 with messages := s0.messages ++ [userMessage "hello"] },
           some typedDictTypeError)
       ∧ (process_user_input slW s0 "hello").1.processingCount
          = s0.processingCount
       ∧ (process_user_input slW s0 "hello").1.messages
          = s0.messages ++ [userMessage "hello"]
       ∧ runLoop dmW slW s0 [.line "hello" ansW]
        = ({ s0 with messages := s0.messages ++ [userMessage "hello"] },
           some typedDictTypeError)) :=
  ⟨⟨by decide, by decide, rfl⟩,
   user_turn_typeerror_before_sampling dmW slW s0 "hello" ansW []
     (by decide) (by decide) rfl⟩

/-- C6: with the Anthropic-style provider selected and an empty API key,
validate_auth returns a non-empty diagnostic and run returns before entering
the interaction loop: the state is unchanged and the Processing state is
never entered. -/
theorem empty_api_key_never_processes (env : ExternalCreds)
    (dm : APIProvider → String) (sl : SamplingLoop) (s : CLIState)
    (events : List InputEvent)
    (hp : s.provider = APIProvider.anthropic) (hk : s.api_key = "") :
    validate_auth s.provider s.api_key env
      = some "Enter your Anthropic API key to continue."
    ∧ "Enter your Anthropic API key to continue." ≠ ""
    ∧ run dm sl env s events = (s, none)
    ∧ (run dm sl env s events).1.processingCount = s.processingCount := by
  have hva : validate_auth s.provider s.api_key env
      = some "Enter your Anthropic API key to continue." := by
    rw [hp, hk]
    rfl
  have hrun : run dm sl env s events = (s, none) := by
    unfold run
    rw [hva]
  exact ⟨hva, by decide, hrun, by rw [hrun]⟩

/-- Witness for C6 at a concrete empty-key state. -/
theorem empty_api_key_never_processes_witness :
    (s0NoKey.provider = APIProvider.anthropic ∧ s0NoKey.api_key = "")
    ∧ (validate_auth s0NoKey.provider s0NoKey.api_key env0
        = some "Enter your Anthropic API key to continue."
       ∧ "Enter your Anthropic API key to continue." ≠ ""
       ∧ run dmW slW env0 s0NoKey [] = (s0NoKey, none)
       ∧ (run dmW slW env0 s0NoKey []).1.processingCount
           = s0NoKey.processingCount) :=
  ⟨⟨rfl, rfl⟩, empty_api_key_never_processes env0 dmW slW s0NoKey [] rfl rfl⟩

/-- C7: the `:clear` command empties the conversation history and changes
nothing else — every configuration attribute, the persisted config files and
the log are untouched — and a following `:settings` command shows the same
configuration over the emptied history. -/
theorem clear_resets_only_messages (dm : APIProvider → String)
    (sl : SamplingLoop) (s : CLIState) (a b : ConfigInputs) :
    runStep dm sl s (.line ":clear" a) = ({ s with messages := [] }, .next)
    ∧ runLoop dm sl s [.line ":clear" a, .line ":settings" b]
        = ({ s with messages := [] }, none)
    ∧ show_settings { s with messages := [] } = show_settings s
    ∧ ({ s with messages := [] } : CLIState).files = s.files
    ∧ ({ s with messages := [] } : CLIState).api_key = s.api_key
    ∧ ({ s with messages := [] } : CLIState).provider = s.provider
    ∧ ({ s with messages := [] } : CLIState).model = s.model
    ∧ ({ s with messages := [] } : CLIState).only_n_most_recent_images
        = s.only_n_most_recent_images
    ∧ ({ s with messages := [] } : CLIState).hide_images = s.hide_images
    ∧ ({ s with messages := [] } : CLIState).custom_system_prompt
        = s.custom_system_prompt
    ∧ ({ s with messages := [] } : CLIState).log = s.log
    ∧ ({ s with messages := [] } : CLIState).messages = [] :=
  ⟨rfl, rfl, rfl, rfl, rfl, rfl, rfl, rfl, rfl, rfl, rfl, rfl⟩

/-- C9: a non-empty answer to the image-retention prompt that does not parse
as an integer is recovered inside configure_settings (the function is total,
mirroring the caught `ValueError`) and the prior image-retention value is
kept unchanged. -/
theorem invalid_n_images_keeps_value (dm : APIProvider → String)
    (inp : ConfigInputs) (s : CLIState)
    (h1 : inp.n_images ≠ "") (h2 : parsePyInt inp.n_images = none) :
    (configure_settings dm inp s).only_n_most_recent_images
      = s.only_n_most_recent_images := by
  unfold configure_settings
  simp only [h2]
  split_ifs <;> rfl

/-- Witness for C9 at the concrete non-integer reply `twelve`. -/
theorem invalid_n_images_keeps_value_witness :
    (inpBad.n_images ≠ "" ∧ parsePyInt inpBad.n_images = none)
    ∧ (configure_settings dmW inpBad s0).only_n_most_recent_images
        = s0.only_n_most_recent_images :=
  ⟨⟨by decide, rfl⟩, invalid_n_images_keeps_value dmW inpBad s0 (by decide) rfl⟩

/-- C10: command matching is case-insensitive — an input line consisting of
`:` followed by whitespace-free text behaves identically to the same line
with the text lowercased, because the driver lowercases the text after the
colon before comparing it against the command names. -/
theorem command_matching_case_insensitive (dm : APIProvider → String)
    (sl : SamplingLoop) (s : CLIState) (ans : ConfigInputs)
    (rest : List InputEvent) (cmd : String)
    (h : ∀ c ∈ cmd.data, pySpace c = false) :
    runLoop dm sl s (.line (":" ++ cmd) ans :: rest)
      = runLoop dm sl s (.line (":" ++ pyLower cmd) ans :: rest) := by
  have hdata1 : ((":" : String) ++ cmd).data = ':' :: cmd.data := by
    simp [String.data_append]
  have hdata2 : ((":" : String) ++ pyLower cmd).data = ':' :: lowerL cmd.data := by
    simp [String.data_append, pyLower]
  have hall1 : ∀ c ∈ ':' :: cmd.data, pySpace c = false := by
    intro c hc
    rcases List.mem_cons.1 hc with rfl | hc
    · decide
    · exact h c hc
  have hall2 : ∀ c ∈ ':' :: lowerL cmd.data, pySpace c = false := by
    intro c hc
    rcases List.mem_cons.1 hc with rfl | hc
    · decide
    · obtain ⟨c0, hc0, rfl⟩ := List.mem_map.1 hc
      exact pySpace_lowerChar c0 (h c0 hc0)
  have hstrip1 : stripChars ((":" ++ cmd : String)).data = ':' :: cmd.data := by
    rw [hdata1]
    exact stripChars_eq_self _ hall1
  have hstrip2 : stripChars ((":" ++ pyLower cmd : String)).data
      = ':' :: lowerL cmd.data := by
    rw [hdata2]
    exact stripChars_eq_self _ hall2
  have hstepL : runStep dm sl s (.line (":" ++ cmd) ans)
      = dispatchCommand dm ans s (String.mk (lowerL cmd.data)) := by
    simp only [runStep, hstrip1]
    rw [if_neg (by simp), if_pos (by simp [isCommandLine])]
    rfl
  have hstepR : runStep dm sl s (.line (":" ++ pyLower cmd) ans)
      = dispatchCommand dm ans s (String.mk (lowerL (lowerL cmd.data))) := by
    simp only [runStep, hstrip2]
    rw [if_neg (by simp), if_pos (by simp [isCommandLine])]
    rfl
  simp only [runLoop]
  rw [hstepL, hstepR, lowerL_idem]

/-- Witness for C10 at the concrete line `:QUIT`. -/
theorem command_matching_case_insensitive_witness :
    (∀ c ∈ "QUIT".data, pySpace c = false)
    ∧ runLoop dmW slW s0 [.line (":" ++ "QUIT") ansW]
        = runLoop dmW slW s0 [.line (":" ++ pyLower "QUIT") ansW] :=
  ⟨by decide,
   command_matching_case_insensitive dmW slW s0 ansW [] "QUIT" (by decide)⟩
